import Mathlib

/-!
Shallow embedding of the mhealth-pmq REST API (Express + Drizzle + JWT),
covering the data model (`users`, `posts` tables from src/db/schema.ts),
the auth and post controllers, the auth / error-handling middleware and the
route wiring, as needed to settle the specification claims.

Machine conventions: database rows are Lean structures; a database state is
a pair of row lists plus the serial-id counters; timestamps are `Nat` values
supplied as a `now` parameter; bcrypt and JWT are modelled by executable
stand-ins that preserve exactly the structure the controllers rely on
(hash determinism, signature checking against a shared secret).
-/

/-- Row of the `users` table (src/db/schema.ts). -/
structure User where
  id : Nat
  email : String
  password : String
  firstName : String
  lastName : String
  isActive : Bool
  createdAt : Nat
  updatedAt : Nat
deriving DecidableEq, Repr

/-- Row of the `posts` table (src/db/schema.ts). -/
structure Post where
  id : Nat
  title : String
  content : Option String
  authorId : Nat
  isPublished : Bool
  createdAt : Nat
  updatedAt : Nat
deriving DecidableEq, Repr

/-- Database state: the two tables plus the serial-id counters. -/
structure DB where
  users : List User
  posts : List Post
  nextUserId : Nat
  nextPostId : Nat
deriving DecidableEq, Repr

/-- The configuration the handlers read (src/config/index.ts `CONFIG`). -/
structure AppConfig where
  JWT_SECRET : String
  NODE_ENV : String
deriving DecidableEq, Repr

/-- Model of `bcrypt.hash(password, saltRounds)`: a deterministic tag. -/
def bcryptHash (password : String) (saltRounds : Nat) : String :=
  "bcrypt:" ++ toString saltRounds ++ ":" ++ password

/-- Model of `bcrypt.compare(password, hash)`: succeeds exactly when the
hash is the hash of the password (the controllers always use 12 rounds). -/
def bcryptCompare (password hash : String) : Bool :=
  hash == bcryptHash password 12

/-- Model of a JWT: either properly signed with some secret and carrying a
`userId` payload, or an arbitrary malformed string. -/
inductive Token where
  | signed (userId : Nat) (secret : String)
  | malformed (raw : String)
deriving DecidableEq, Repr

/-- Model of `jwt.sign({ userId }, secret, ...)`. -/
def jwtSign (userId : Nat) (secret : String) : Token :=
  Token.signed userId secret

/-- Model of `jwt.verify(token, secret)`: `none` plays the role of the
thrown verification error. -/
def jwtVerify (t : Token) (secret : String) : Option Nat :=
  match t with
  | Token.signed uid s => if s == secret then some uid else none
  | Token.malformed _ => none

/-- The projection `authenticateToken` stores on `req.user`
(src/middleware/auth.ts). -/
structure AuthUser where
  id : Nat
  email : String
  firstName : String
  lastName : String
deriving DecidableEq, Repr

/-- The columns `AuthController.register` returns (`.returning({...})`). -/
structure RegUser where
  id : Nat
  email : String
  firstName : String
  lastName : String
  createdAt : Nat
deriving DecidableEq, Repr

/-- The login response user: the full row minus the `password` column
(`const { password: _, ...userWithoutPassword } = user[0]`). -/
structure UserNoPassword where
  id : Nat
  email : String
  firstName : String
  lastName : String
  isActive : Bool
  createdAt : Nat
  updatedAt : Nat
deriving DecidableEq, Repr

/-- The joined author columns selected by the post read queries. -/
structure Author where
  id : Nat
  firstName : String
  lastName : String
  email : String
deriving DecidableEq, Repr

/-- The post projection of `getAllPosts` / `getPostById` (left join with
the author columns). -/
structure PostView where
  id : Nat
  title : String
  content : Option String
  isPublished : Bool
  createdAt : Nat
  updatedAt : Nat
  author : Option Author
deriving DecidableEq, Repr

/-- The post projection of `getPostsByUserId` (no author join). -/
structure UserPostView where
  id : Nat
  title : String
  content : Option String
  isPublished : Bool
  createdAt : Nat
  updatedAt : Nat
deriving DecidableEq, Repr

/-- The pagination envelope `{ page, limit, hasMore }`. -/
structure Pagination where
  page : Nat
  limit : Nat
  hasMore : Bool
deriving DecidableEq, Repr

/-- The `data` part of the uniform response envelope, one constructor per
response shape the handlers produce. -/
inductive RespData where
  | empty
  | registered (user : RegUser) (token : Token)
  | loggedIn (user : UserNoPassword) (token : Token)
  | profile (user : AuthUser)
  | postsPage (posts : List PostView) (pagination : Pagination)
  | singlePost (p : PostView)
  | fullPost (p : Post)
  | userPosts (posts : List UserPostView) (pagination : Pagination)
  | healthInfo (timestamp : Nat)
deriving DecidableEq, Repr

/-- An HTTP response: status code plus the uniform JSON envelope
`{ success, message?, data?, stack? }`. -/
structure Response where
  status : Nat
  success : Bool
  message : Option String
  data : RespData
  stack : Option String
deriving DecidableEq, Repr

/-- An operational error (src/middleware/error.ts `AppError`): a JS `Error`
carries a message and a stack captured at construction; `statusCode` is the
optional extra field. -/
structure AppError where
  message : String
  statusCode : Option Nat
  stack : String
deriving DecidableEq, Repr

/-- `createError(message, statusCode)` from src/middleware/error.ts; the
stack of a fresh JS `Error` starts with its message line. -/
def createError (message : String) (statusCode : Nat) : AppError :=
  { message := message, statusCode := some statusCode
  , stack := "Error: " ++ message }

/-- The terminal error handler (src/middleware/error.ts `errorHandler`):
`statusCode = err.statusCode || 500`, `message = err.message || default`,
stack included only when `NODE_ENV === 'development'`. -/
def errorHandler (nodeEnv : String) (err : AppError) : Response :=
  { status :=
      match err.statusCode with
      | none => 500
      | some c => if c == 0 then 500 else c
  , success := false
  , message := some (if err.message == "" then "Internal Server Error" else err.message)
  , data := RespData.empty
  , stack := if nodeEnv == "development" then some err.stack else none }

/-- Result of the `authenticateToken` middleware: either an early response
(status, message) or the authenticated user placed on the request. -/
inductive AuthResult where
  | fail (status : Nat) (message : String)
  | ok (user : AuthUser)
deriving DecidableEq, Repr

/-- `authenticateToken` (src/middleware/auth.ts): missing token answers
401; a token that fails verification answers 403; a verified token whose
user is absent answers 401; otherwise the user projection is attached. -/
def authenticateToken (db : DB) (secret : String) (header : Option Token) : AuthResult :=
  match header with
  | none => AuthResult.fail 401 "Access token required"
  | some t =>
    match jwtVerify t secret with
    | none => AuthResult.fail 403 "Invalid or expired token"
    | some uid =>
      match (db.users.filter (fun u => u.id == uid)).take 1 with
      | [] => AuthResult.fail 401 "Invalid token"
      | u :: _ =>
          AuthResult.ok { id := u.id, email := u.email
                        , firstName := u.firstName, lastName := u.lastName }

/-- Success-response builder (`res.status(s).json({ success: true, ... })`). -/
def okResp (status : Nat) (message : Option String) (d : RespData) : Response :=
  { status := status, success := true, message := message, data := d, stack := none }

/-- `AuthController.register` (src/controllers/authController.ts): reject a
duplicate email with 400, otherwise hash the password with 12 salt rounds,
insert the row, and answer 201 with the projected user and a signed token.
An `Except.error` models a thrown `AppError`. -/
def AuthController.register (secret : String) (db : DB) (now : Nat)
    (email password firstName lastName : String) :
    Except AppError (Response × DB) :=
  let existingUser := (db.users.filter (fun u => u.email == email)).take 1
  if existingUser.length > 0 then
    Except.error (createError "User with this email already exists" 400)
  else
    let hashedPassword := bcryptHash password 12
    let newUser : User :=
      { id := db.nextUserId, email := email, password := hashedPassword
      , firstName := firstName, lastName := lastName, isActive := true
      , createdAt := now, updatedAt := now }
    let returned : RegUser :=
      { id := newUser.id, email := newUser.email, firstName := newUser.firstName
      , lastName := newUser.lastName, createdAt := newUser.createdAt }
    let token := jwtSign newUser.id secret
    let db2 : DB :=
      { db with users := db.users ++ [newUser], nextUserId := db.nextUserId + 1 }
    Except.ok
      (okResp 201 (some "User registered successfully")
        (RespData.registered returned token), db2)

/-- `AuthController.login`: look the user up by email; absent user and
failed hash comparison both throw the same generic 401; on success answer
200 with the password-stripped row and a signed token. -/
def AuthController.login (secret : String) (db : DB) (email password : String) :
    Except AppError (Response × DB) :=
  match (db.users.filter (fun u => u.email == email)).take 1 with
  | [] => Except.error (createError "Invalid email or password" 401)
  | u :: _ =>
    if bcryptCompare password u.password then
      let token := jwtSign u.id secret
      let userWithoutPassword : UserNoPassword :=
        { id := u.id, email := u.email, firstName := u.firstName
        , lastName := u.lastName, isActive := u.isActive
        , createdAt := u.createdAt, updatedAt := u.updatedAt }
      Except.ok
        (okResp 200 (some "Login successful")
          (RespData.loggedIn userWithoutPassword token), db)
    else
      Except.error (createError "Invalid email or password" 401)

/-- `AuthController.getProfile`: echo the user the middleware attached. -/
def AuthController.getProfile (db : DB) (user : AuthUser) :
    Except AppError (Response × DB) :=
  Except.ok (okResp 200 none (RespData.profile user), db)

/-- The left-join projection of the post read queries: the post columns
plus the (at most one, by primary key) matching author row. -/
def postView (db : DB) (p : Post) : PostView :=
  { id := p.id, title := p.title, content := p.content
  , isPublished := p.isPublished, createdAt := p.createdAt, updatedAt := p.updatedAt
  , author :=
      match (db.users.filter (fun u => u.id == p.authorId)).take 1 with
      | [] => none
      | u :: _ => some { id := u.id, firstName := u.firstName
                       , lastName := u.lastName, email := u.email } }

/-- Insert a post into a list kept in descending `createdAt` order. -/
def insertByCreatedAtDesc (p : Post) : List Post → List Post
  | [] => [p]
  | q :: qs =>
    if q.createdAt ≤ p.createdAt then p :: q :: qs
    else q :: insertByCreatedAtDesc p qs

/-- The `orderBy(desc(posts.createdAt))` clause: sort the table rows by
descending creation time. -/
def sortByCreatedAtDesc : List Post → List Post
  | [] => []
  | p :: ps => insertByCreatedAtDesc p (sortByCreatedAtDesc ps)

/-- `parseInt(x) || d`: a missing value or a parsed 0 falls back to `d`
(after the zod digit check the value, when present, is a `Nat`). -/
def queryOr (q : Option Nat) (d : Nat) : Nat :=
  match q with
  | none => d
  | some n => if n == 0 then d else n

/-- `PostController.getAllPosts` (src/controllers/postController.ts):
page/limit with defaults 1/10, `offset = (page - 1) * limit`, rows ordered
by descending creation time, `hasMore` inferred from a full page. -/
def PostController.getAllPosts (db : DB) (pageQ limitQ : Option Nat) :
    Except AppError (Response × DB) :=
  let page := queryOr pageQ 1
  let limit := queryOr limitQ 10
  let offset := (page - 1) * limit
  let allPosts :=
    ((((sortByCreatedAtDesc db.posts).drop offset).take limit).map (postView db))
  Except.ok
    (okResp 200 none
      (RespData.postsPage allPosts
        { page := page, limit := limit, hasMore := allPosts.length == limit }), db)

/-- `PostController.getPostById`: look the post up by primary key; absent
post throws 404; otherwise answer 200 with the joined projection. -/
def PostController.getPostById (db : DB) (id : Nat) :
    Except AppError (Response × DB) :=
  match (db.posts.filter (fun p => p.id == id)).take 1 with
  | [] => Except.error (createError "Post not found" 404)
  | p :: _ => Except.ok (okResp 200 none (RespData.singlePost (postView db p)), db)

/-- `PostController.createPost`: insert a post owned by the authenticated
user (`isPublished || false`), answer 201 with the inserted row. -/
def PostController.createPost (db : DB) (now : Nat) (userId : Nat)
    (title : String) (content : Option String) (isPublished : Option Bool) :
    Except AppError (Response × DB) :=
  let newPost : Post :=
    { id := db.nextPostId, title := title, content := content
    , authorId := userId, isPublished := isPublished.getD false
    , createdAt := now, updatedAt := now }
  Except.ok
    (okResp 201 (some "Post created successfully") (RespData.fullPost newPost)
    , { db with posts := db.posts ++ [newPost], nextPostId := db.nextPostId + 1 })

/-- The update body `UpdatePostData`: any subset of title/content/isPublished. -/
structure UpdatePostData where
  title : Option String
  content : Option String
  isPublished : Option Bool
deriving DecidableEq, Repr

/-- The `db.update(posts).set({ ...updateData, updatedAt: new Date() })`
row transformation: spread the provided fields over the row. -/
def applyUpdate (upd : UpdatePostData) (now : Nat) (p : Post) : Post :=
  { p with
    title := upd.title.getD p.title
  , content := match upd.content with | none => p.content | some c => some c
  , isPublished := upd.isPublished.getD p.isPublished
  , updatedAt := now }

/-- `PostController.updatePost`: fetch by id (404 when absent), compare the
stored `authorId` to the caller id (403 on mismatch), then update the row
and answer 200 with the updated row. -/
def PostController.updatePost (db : DB) (now : Nat) (userId : Nat) (id : Nat)
    (upd : UpdatePostData) : Except AppError (Response × DB) :=
  match (db.posts.filter (fun p => p.id == id)).take 1 with
  | [] => Except.error (createError "Post not found" 404)
  | p :: _ =>
    if p.authorId != userId then
      Except.error (createError "Not authorized to update this post" 403)
    else
      let db2 : DB :=
        { db with posts :=
            db.posts.map (fun q => if q.id == id then applyUpdate upd now q else q) }
      Except.ok
        (okResp 200 (some "Post updated successfully")
          (RespData.fullPost (applyUpdate upd now p)), db2)

/-- `PostController.deletePost`: fetch by id (404 when absent), ownership
check (403 on mismatch), then delete the row and answer 200. -/
def PostController.deletePost (db : DB) (userId : Nat) (id : Nat) :
    Except AppError (Response × DB) :=
  match (db.posts.filter (fun p => p.id == id)).take 1 with
  | [] => Except.error (createError "Post not found" 404)
  | p :: _ =>
    if p.authorId != userId then
      Except.error (createError "Not authorized to delete this post" 403)
    else
      Except.ok
        (okResp 200 (some "Post deleted successfully") RespData.empty
        , { db with posts := db.posts.filter (fun q => q.id != id) })

/-- `PostController.getPostsByUserId`: the same pagination over the posts
of one author, projected without the author join. -/
def PostController.getPostsByUserId (db : DB) (userId : Nat)
    (pageQ limitQ : Option Nat) : Except AppError (Response × DB) :=
  let page := queryOr pageQ 1
  let limit := queryOr limitQ 10
  let offset := (page - 1) * limit
  let userPosts :=
    ((((sortByCreatedAtDesc (db.posts.filter (fun p => p.authorId == userId))).drop
        offset).take limit).map
      (fun p => ({ id := p.id, title := p.title, content := p.content
                 , isPublished := p.isPublished, createdAt := p.createdAt
                 , updatedAt := p.updatedAt } : UserPostView)))
  Except.ok
    (okResp 200 none
      (RespData.userPosts userPosts
        { page := page, limit := limit, hasMore := userPosts.length == limit }), db)

/-- Path-parameter lookup (`req.params`). -/
def lookupParam (key : String) : List (String × String) → Option String
  | [] => none
  | (k, v) :: rest => if k == key then some v else lookupParam key rest

/-- Modelled from the spec: the validation middleware (`validateParams` of
src/middleware/validation.ts) is not among the sources, only its callers
are; per the spec it validates the input shape against the given zod schema
and a validation failure answers 400 with the uniform envelope. This is its
parse of `idParamSchema` (src/utils/schemas.ts): the key `id` is required
and its value must be a digit string, transformed to a number. -/
def idParamSchemaParse (params : List (String × String)) : Option Nat :=
  match lookupParam "id" params with
  | none => none
  | some s => s.toNat?

/-- Modelled from the spec: the 400 response the validation middleware
produces on a failed parse (spec: validation failure answers 400, uniform
envelope). -/
def validationFailResp : Response :=
  { status := 400, success := false, message := some "Validation failed"
  , data := RespData.empty, stack := none }

/-- Outcome of handling one request: the response, the database afterwards,
and whether the controller handler was invoked (as opposed to a middleware
answering first). -/
structure Outcome where
  resp : Response
  db : DB
  handlerRan : Bool
deriving DecidableEq, Repr

/-- The requests of the API surface (route wiring in src/routes): protected
routes carry the optional bearer token extracted from the header. -/
inductive Req where
  | health
  | register (email password firstName lastName : String)
  | login (email password : String)
  | me (auth : Option Token)
  | listPosts (page limit : Option Nat)
  | getPost (id : Nat)
  | postsByUser (userId : Nat) (page limit : Option Nat)
  | create (auth : Option Token) (title : String) (content : Option String)
      (isPublished : Option Bool)
  | update (auth : Option Token) (id : Nat) (upd : UpdatePostData)
  | remove (auth : Option Token) (id : Nat)
deriving DecidableEq, Repr

/-- Run a controller body: a thrown error funnels into `errorHandler` and
leaves the database untouched. -/
def runController (cfg : AppConfig) (db : DB)
    (r : Except AppError (Response × DB)) : Outcome :=
  match r with
  | Except.error e => { resp := errorHandler cfg.NODE_ENV e, db := db, handlerRan := true }
  | Except.ok (resp, db2) => { resp := resp, db := db2, handlerRan := true }

/-- Run a protected route: `authenticateToken` answers directly on failure
(the controller is never invoked); on success the controller runs with the
attached user. -/
def runProtected (cfg : AppConfig) (db : DB) (auth : Option Token)
    (k : AuthUser → Except AppError (Response × DB)) : Outcome :=
  match authenticateToken db cfg.JWT_SECRET auth with
  | AuthResult.fail s m =>
      { resp := { status := s, success := false, message := some m
                , data := RespData.empty, stack := none }
      , db := db, handlerRan := false }
  | AuthResult.ok u => runController cfg db (k u)

/-- The request dispatcher: the route wiring of src/routes composed with
the middleware chain. The `/:id` routes receive an already-validated
numeric id (on those routes `validateParams(idParamSchema)` on the
canonical digit string is the identity); the `/posts/user/:userId` route
runs `validateParams(idParamSchema)` on its raw params, whose only key is
`userId`. -/
def handle (cfg : AppConfig) (now : Nat) (db : DB) : Req → Outcome
  | Req.health =>
      { resp := okResp 200 (some "API is running") (RespData.healthInfo now)
      , db := db, handlerRan := true }
  | Req.register e p f l =>
      runController cfg db (AuthController.register cfg.JWT_SECRET db now e p f l)
  | Req.login e p =>
      runController cfg db (AuthController.login cfg.JWT_SECRET db e p)
  | Req.me auth =>
      runProtected cfg db auth (fun u => AuthController.getProfile db u)
  | Req.listPosts pg lim =>
      runController cfg db (PostController.getAllPosts db pg lim)
  | Req.getPost id => runController cfg db (PostController.getPostById db id)
  | Req.postsByUser uid pg lim =>
      match idParamSchemaParse [("userId", toString uid)] with
      | none => { resp := validationFailResp, db := db, handlerRan := false }
      | some _ =>
          runController cfg db (PostController.getPostsByUserId db uid pg lim)
  | Req.create auth title content isPublished =>
      runProtected cfg db auth
        (fun u => PostController.createPost db now u.id title content isPublished)
  | Req.update auth id upd =>
      runProtected cfg db auth
        (fun u => PostController.updatePost db now u.id id upd)
  | Req.remove auth id =>
      runProtected cfg db auth (fun u => PostController.deletePost db u.id id)

/-! ## Fixtures for concrete witnesses -/

/-- A concrete configuration for witnesses. -/
def cfg0 : AppConfig := { JWT_SECRET := "s3cret", NODE_ENV := "production" }

/-- A concrete stored user for witnesses. -/
def aliceRow : User :=
  { id := 1, email := "alice@example.com", password := bcryptHash "hunter77" 12
  , firstName := "Alice", lastName := "Smith", isActive := true
  , createdAt := 0, updatedAt := 0 }

/-- A one-user database for witnesses. -/
def db1 : DB := { users := [aliceRow], posts := [], nextUserId := 2, nextPostId := 1 }

/-! ## Claims about the error handler (C7) -/

/-- A concrete error with no explicit statusCode. -/
def plainErr : AppError :=
  { message := "boom", statusCode := none, stack := "Error: boom" }

/-- Claim C7, counterexample: in the environment "staging" — which is not
production — an error with no statusCode is answered with 500 but the
stack is nevertheless omitted, refuting "stack included iff the
environment is not production". -/
theorem errorHandler_staging_no_stack :
    "staging" ≠ "production" ∧
    (errorHandler "staging" plainErr).status = 500 ∧
    (errorHandler "staging" plainErr).stack = none := by
  exact ⟨by decide, rfl, rfl⟩

/-- Claim C7 (amended): an error with no explicit statusCode is answered
with status 500, and the body carries the stack iff the environment is
exactly "development". -/
theorem errorHandler_default_500_stack_dev_only (env : String) (err : AppError)
    (h : err.statusCode = none) :
    (errorHandler env err).status = 500 ∧
    ((errorHandler env err).stack = some err.stack ↔ env = "development") := by
  refine ⟨by simp [errorHandler, h], ?_⟩
  by_cases he : env = "development"
  · simp [errorHandler, he]
  · simp [errorHandler, he]

/-- Witness for the amended C7 theorem at a concrete error and the two
environments folded into one check. -/
theorem errorHandler_default_500_stack_dev_only_witness :
    plainErr.statusCode = none ∧
    ((errorHandler "development" plainErr).status = 500 ∧
     ((errorHandler "development" plainErr).stack = some plainErr.stack ↔
        "development" = "development")) :=
  ⟨rfl, errorHandler_default_500_stack_dev_only "development" plainErr rfl⟩

/-! ## Claims about registration (C3, C9) -/

/-- Claim C3: a registration whose email equals a stored user's email is
answered with 400 and the users table is unchanged. -/
theorem register_duplicate_email_rejected (cfg : AppConfig) (now : Nat) (db : DB)
    (e p f l : String) (u : User) (rest : List User)
    (hdup : db.users.filter (fun v => v.email == e) = u :: rest) :
    (handle cfg now db (Req.register e p f l)).resp.status = 400 ∧
    (handle cfg now db (Req.register e p f l)).db.users = db.users := by
  simp [handle, runController, AuthController.register, hdup, errorHandler, createError]

/-- Witness for C3: the duplicate registration on the one-user database. -/
theorem register_duplicate_email_rejected_witness :
    db1.users.filter (fun v => v.email == "alice@example.com") = aliceRow :: [] ∧
    ((handle cfg0 7 db1 (Req.register "alice@example.com" "pw1234" "Eve" "Jones")).resp.status = 400 ∧
     (handle cfg0 7 db1 (Req.register "alice@example.com" "pw1234" "Eve" "Jones")).db.users = db1.users) :=
  ⟨by decide
  , register_duplicate_email_rejected cfg0 7 db1 "alice@example.com" "pw1234" "Eve" "Jones"
      aliceRow [] (by decide)⟩

/-- Claim C9: a successful registration is answered with 201; the returned
user object carries exactly id, email, firstName, lastName and createdAt
(the `RegUser` projection — no password field), and the whole response is
unchanged under any other submitted password. -/
theorem register_response_omits_password (cfg : AppConfig) (now : Nat) (db : DB)
    (e p f l : String)
    (hfree : db.users.filter (fun v => v.email == e) = []) :
    (handle cfg now db (Req.register e p f l)).resp.status = 201 ∧
    (handle cfg now db (Req.register e p f l)).resp.data =
      RespData.registered
        { id := db.nextUserId, email := e, firstName := f, lastName := l
        , createdAt := now }
        (jwtSign db.nextUserId cfg.JWT_SECRET) ∧
    (∀ p2 : String,
      (handle cfg now db (Req.register e p2 f l)).resp =
        (handle cfg now db (Req.register e p f l)).resp) := by
  refine ⟨?_, ?_, ?_⟩ <;>
    simp [handle, runController, AuthController.register, hfree, okResp]

/-- Witness for C9: a fresh registration on the one-user database. -/
theorem register_response_omits_password_witness :
    db1.users.filter (fun v => v.email == "bob@example.com") = [] ∧
    ((handle cfg0 9 db1 (Req.register "bob@example.com" "pw1234" "Bob" "Stone")).resp.status = 201 ∧
     (handle cfg0 9 db1 (Req.register "bob@example.com" "pw1234" "Bob" "Stone")).resp.data =
       RespData.registered
         { id := db1.nextUserId, email := "bob@example.com", firstName := "Bob"
         , lastName := "Stone", createdAt := 9 }
         (jwtSign db1.nextUserId cfg0.JWT_SECRET) ∧
     (∀ p2 : String,
       (handle cfg0 9 db1 (Req.register "bob@example.com" p2 "Bob" "Stone")).resp =
         (handle cfg0 9 db1 (Req.register "bob@example.com" "pw1234" "Bob" "Stone")).resp)) :=
  ⟨by decide
  , register_response_omits_password cfg0 9 db1 "bob@example.com" "pw1234" "Bob" "Stone"
      (by decide)⟩

/-! ## Claim about login indistinguishability (C2) -/

/-- Claim C2: a login with an email matching no stored user and a login
with a stored user's email but a password failing the hash comparison
produce identical outcomes — the same generic 401 response. -/
theorem login_failures_indistinguishable (cfg : AppConfig) (now : Nat) (db : DB)
    (e1 p1 e2 p2 : String) (u : User) (rest : List User)
    (h1 : db.users.filter (fun v => v.email == e1) = [])
    (h2 : db.users.filter (fun v => v.email == e2) = u :: rest)
    (hpw : bcryptCompare p2 u.password = false) :
    handle cfg now db (Req.login e1 p1) = handle cfg now db (Req.login e2 p2) ∧
    (handle cfg now db (Req.login e1 p1)).resp.status = 401 := by
  constructor
  · simp [handle, runController, AuthController.login, h1, h2, hpw]
  · simp [handle, runController, AuthController.login, h1, errorHandler, createError]

/-- Witness for C2: unknown email vs. Alice with a wrong password. -/
theorem login_failures_indistinguishable_witness :
    db1.users.filter (fun v => v.email == "nobody@example.com") = [] ∧
    db1.users.filter (fun v => v.email == "alice@example.com") = aliceRow :: [] ∧
    bcryptCompare "wrongpw" aliceRow.password = false ∧
    (handle cfg0 3 db1 (Req.login "nobody@example.com" "x") =
       handle cfg0 3 db1 (Req.login "alice@example.com" "wrongpw") ∧
     (handle cfg0 3 db1 (Req.login "nobody@example.com" "x")).resp.status = 401) :=
  ⟨by decide, by decide, by decide
  , login_failures_indistinguishable cfg0 3 db1 "nobody@example.com" "x"
      "alice@example.com" "wrongpw" aliceRow [] (by decide) (by decide) (by decide)⟩

/-! ## Claim about ownership-gated mutation (C1) -/

/-- Claim C1: when the token authenticates as user B and the post stored
under the requested id has a different authorId, both update and delete
are answered with 403 and the database is unchanged; reading the post is a
public route (the request carries no token) and is answered 200 whenever
the post exists. -/
theorem post_mutation_requires_ownership (cfg : AppConfig) (now : Nat) (db : DB)
    (tok : Token) (B : AuthUser) (pid : Nat) (p : Post) (rest : List Post)
    (upd : UpdatePostData)
    (hauth : authenticateToken db cfg.JWT_SECRET (some tok) = AuthResult.ok B)
    (hpost : db.posts.filter (fun q => q.id == pid) = p :: rest)
    (hne : p.authorId ≠ B.id) :
    ((handle cfg now db (Req.update (some tok) pid upd)).resp.status = 403 ∧
     (handle cfg now db (Req.update (some tok) pid upd)).db = db) ∧
    ((handle cfg now db (Req.remove (some tok) pid)).resp.status = 403 ∧
     (handle cfg now db (Req.remove (some tok) pid)).db = db) ∧
    ((handle cfg now db (Req.getPost pid)).resp.status = 200 ∧
     (handle cfg now db (Req.getPost pid)).resp.success = true) := by
  refine ⟨?_, ?_, ?_⟩
  · simp [handle, runProtected, hauth, runController, PostController.updatePost,
      hpost, hne, errorHandler, createError]
  · simp [handle, runProtected, hauth, runController, PostController.deletePost,
      hpost, hne, errorHandler, createError]
  · simp [handle, runController, PostController.getPostById, hpost, okResp]

/-- A post of Alice (authorId 1) for witnesses. -/
def alicePost : Post :=
  { id := 1, title := "hello", content := some "world", authorId := 1
  , isPublished := true, createdAt := 5, updatedAt := 5 }

/-- A two-user database where Alice owns post 1 and Bob (id 2) does not. -/
def db2users : DB :=
  { users := [aliceRow,
      { id := 2, email := "bob@example.com", password := bcryptHash "pw1234" 12
      , firstName := "Bob", lastName := "Stone", isActive := true
      , createdAt := 1, updatedAt := 1 }]
  , posts := [alicePost], nextUserId := 3, nextPostId := 2 }

/-- Bob as the middleware attaches him. -/
def bobAuth : AuthUser :=
  { id := 2, email := "bob@example.com", firstName := "Bob", lastName := "Stone" }

/-- Witness for C1: Bob's valid token against Alice's post. -/
theorem post_mutation_requires_ownership_witness :
    authenticateToken db2users cfg0.JWT_SECRET (some (Token.signed 2 "s3cret")) =
      AuthResult.ok bobAuth ∧
    db2users.posts.filter (fun q => q.id == 1) = alicePost :: [] ∧
    alicePost.authorId ≠ bobAuth.id ∧
    (((handle cfg0 6 db2users (Req.update (some (Token.signed 2 "s3cret")) 1
          { title := some "stolen", content := none, isPublished := none })).resp.status = 403 ∧
      (handle cfg0 6 db2users (Req.update (some (Token.signed 2 "s3cret")) 1
          { title := some "stolen", content := none, isPublished := none })).db = db2users) ∧
     ((handle cfg0 6 db2users (Req.remove (some (Token.signed 2 "s3cret")) 1)).resp.status = 403 ∧
      (handle cfg0 6 db2users (Req.remove (some (Token.signed 2 "s3cret")) 1)).db = db2users) ∧
     ((handle cfg0 6 db2users (Req.getPost 1)).resp.status = 200 ∧
      (handle cfg0 6 db2users (Req.getPost 1)).resp.success = true)) :=
  ⟨by decide, by decide, by decide
  , post_mutation_requires_ownership cfg0 6 db2users (Token.signed 2 "s3cret") bobAuth 1
      alicePost [] { title := some "stolen", content := none, isPublished := none }
      (by decide) (by decide) (by decide)⟩

/-! ## Claim about the authentication gate (C6) -/

/-- Claim C6: on every protected route — GET /auth/me, POST /posts,
PUT /posts/:id, DELETE /posts/:id — a missing bearer token is answered 401
and a present token that fails verification is answered 403, and in both
cases the controller handler is never invoked. -/
theorem protected_routes_gate (cfg : AppConfig) (now : Nat) (db : DB) (t : Token)
    (hv : jwtVerify t cfg.JWT_SECRET = none)
    (title : String) (content : Option String) (ip : Option Bool)
    (id : Nat) (upd : UpdatePostData) :
    ∀ mk ∈ [fun a => Req.me a,
            fun a => Req.create a title content ip,
            fun a => Req.update a id upd,
            fun a => Req.remove a id],
      ((handle cfg now db (mk none)).resp.status = 401 ∧
       (handle cfg now db (mk none)).handlerRan = false) ∧
      ((handle cfg now db (mk (some t))).resp.status = 403 ∧
       (handle cfg now db (mk (some t))).handlerRan = false) := by
  intro mk hmk
  simp only [List.mem_cons, List.not_mem_nil, or_false] at hmk
  rcases hmk with h | h | h | h <;> subst h <;>
    exact ⟨by simp [handle, runProtected, authenticateToken],
           by simp [handle, runProtected, authenticateToken, hv]⟩

/-- Witness for C6: a malformed token on GET /auth/me. -/
theorem protected_routes_gate_witness :
    jwtVerify (Token.malformed "garbage") cfg0.JWT_SECRET = none ∧
    (((handle cfg0 2 db1 (Req.me none)).resp.status = 401 ∧
      (handle cfg0 2 db1 (Req.me none)).handlerRan = false) ∧
     ((handle cfg0 2 db1 (Req.me (some (Token.malformed "garbage")))).resp.status = 403 ∧
      (handle cfg0 2 db1 (Req.me (some (Token.malformed "garbage")))).handlerRan = false)) :=
  ⟨rfl
  , protected_routes_gate cfg0 2 db1 (Token.malformed "garbage") rfl
      "t" none none 1 { title := none, content := none, isPublished := none }
      (fun a => Req.me a) (by simp)⟩

/-! ## Claim about the /posts/user/:userId route (C5) -/

/-- A database with posts of user 1, reachable through /posts/user/1. -/
def dbUserPosts : DB :=
  { users := [aliceRow], posts := [alicePost], nextUserId := 2, nextPostId := 2 }

/-- Claim C5, evaluated at a concrete request: the /posts/user/:userId
route applies `validateParams(idParamSchema)`, but the schema requires the
key "id" while the route's only param key is "userId", so the parse fails
and the request is answered 400 before `getPostsByUserId` runs — never 200
as the claim and the spec's endpoint table promise. -/
theorem postsByUser_rejected_by_param_validation :
    idParamSchemaParse [("userId", "1")] = none ∧
    (handle cfg0 0 dbUserPosts (Req.postsByUser 1 (some 1) (some 10))).resp.status = 400 ∧
    (handle cfg0 0 dbUserPosts (Req.postsByUser 1 (some 1) (some 10))).handlerRan = false ∧
    (handle cfg0 0 dbUserPosts (Req.postsByUser 1 (some 1) (some 10))).db = dbUserPosts := by
  exact ⟨rfl, rfl, rfl, rfl⟩

/-! ## Claim about pagination (C4) -/

/-- Inserting into the descending-order list adds one element. -/
theorem length_insertByCreatedAtDesc (p : Post) (l : List Post) :
    (insertByCreatedAtDesc p l).length = l.length + 1 := by
  induction l with
  | nil => rfl
  | cons q qs ih =>
    simp only [insertByCreatedAtDesc]
    split <;> simp [ih]

/-- The descending sort keeps the number of rows. -/
theorem length_sortByCreatedAtDesc (l : List Post) :
    (sortByCreatedAtDesc l).length = l.length := by
  induction l with
  | nil => rfl
  | cons p ps ih => simp [sortByCreatedAtDesc, length_insertByCreatedAtDesc, ih]

/-- Claim C4: for page p ≥ 1 and limit L ≥ 1, the post list answers 200
with exactly the rows of the descending-creation-time order after skipping
(p-1)·L and taking at most L, the envelope's hasMore is the test "exactly
L rows returned", and the number of returned rows is
min L (total - (p-1)·L). -/
theorem getAllPosts_pagination (cfg : AppConfig) (now : Nat) (db : DB) (p L : Nat)
    (hp : 1 ≤ p) (hL : 1 ≤ L) :
    (handle cfg now db (Req.listPosts (some p) (some L))).resp.status = 200 ∧
    (handle cfg now db (Req.listPosts (some p) (some L))).resp.data =
      RespData.postsPage
        ((((sortByCreatedAtDesc db.posts).drop ((p - 1) * L)).take L).map (postView db))
        { page := p, limit := L
        , hasMore :=
            ((((sortByCreatedAtDesc db.posts).drop ((p - 1) * L)).take L).map
              (postView db)).length == L } ∧
    ((((sortByCreatedAtDesc db.posts).drop ((p - 1) * L)).take L).map
        (postView db)).length = min L (db.posts.length - (p - 1) * L) := by
  have hp0 : (p == 0) = false := by
    simp [Nat.pos_iff_ne_zero.mp hp]
  have hL0 : (L == 0) = false := by
    simp [Nat.pos_iff_ne_zero.mp hL]
  refine ⟨?_, ?_, ?_⟩
  · simp [handle, runController, PostController.getAllPosts, okResp]
  · simp [handle, runController, PostController.getAllPosts, queryOr, hp0, hL0, okResp]
  · simp [List.length_take, List.length_drop, length_sortByCreatedAtDesc]

/-- Fifteen stored posts, all by user 1, creation times 0..14. -/
def db15 : DB :=
  { users := []
  , posts := (List.range 15).map (fun i =>
      { id := i + 1, title := "t", content := none, authorId := 1
      , isPublished := false, createdAt := i, updatedAt := i })
  , nextUserId := 1, nextPostId := 16 }

/-- Page size and hasMore of a posts-page outcome, for compact checks. -/
def pageShape (o : Outcome) : Option (Nat × Bool) :=
  match o.resp.data with
  | RespData.postsPage l pag => some (l.length, pag.hasMore)
  | _ => none

/-- Witness for C4 on the fifteen-post database: the general theorem
applied at page 1, limit 10, together with the spec's concrete instance —
page 1 returns 10 rows with hasMore, page 2 returns 5 without. -/
theorem getAllPosts_pagination_witness :
    (1 ≤ 1 ∧ 1 ≤ 10) ∧
    ((handle cfg0 0 db15 (Req.listPosts (some 1) (some 10))).resp.status = 200 ∧
     (handle cfg0 0 db15 (Req.listPosts (some 1) (some 10))).resp.data =
       RespData.postsPage
         ((((sortByCreatedAtDesc db15.posts).drop ((1 - 1) * 10)).take 10).map
           (postView db15))
         { page := 1, limit := 10
         , hasMore :=
             ((((sortByCreatedAtDesc db15.posts).drop ((1 - 1) * 10)).take 10).map
               (postView db15)).length == 10 } ∧
     ((((sortByCreatedAtDesc db15.posts).drop ((1 - 1) * 10)).take 10).map
         (postView db15)).length = min 10 (db15.posts.length - (1 - 1) * 10)) ∧
    pageShape (handle cfg0 0 db15 (Req.listPosts (some 1) (some 10))) = some (10, true) ∧
    pageShape (handle cfg0 0 db15 (Req.listPosts (some 2) (some 10))) = some (5, false) :=
  ⟨⟨by decide, by decide⟩
  , getAllPosts_pagination cfg0 0 db15 1 10 (by decide) (by decide)
  , by decide, by decide⟩

/-! ## Claim about the users-table frame (C8) -/

/-- Claim C8: no request ever updates or deletes a user row — each outcome
leaves the users list unchanged, except a registration, which can only
extend it by exactly one appended row. -/
theorem users_table_frame (cfg : AppConfig) (now : Nat) (db : DB) (req : Req) :
    (handle cfg now db req).db.users = db.users ∨
    ((∃ e p f l, req = Req.register e p f l) ∧
      ∃ u, (handle cfg now db req).db.users = db.users ++ [u]) := by
  cases req with
  | health => left; rfl
  | register e p f l =>
    cases hc : db.users.filter (fun u => u.email == e) with
    | cons u rest =>
      left
      simp [handle, runController, AuthController.register, hc]
    | nil =>
      right
      refine ⟨⟨e, p, f, l, rfl⟩,
        ⟨{ id := db.nextUserId, email := e, password := bcryptHash p 12
         , firstName := f, lastName := l, isActive := true
         , createdAt := now, updatedAt := now }, ?_⟩⟩
      simp [handle, runController, AuthController.register, hc]
  | login e p =>
    left
    cases h : (db.users.filter (fun u => u.email == e)).take 1 with
    | nil => simp [handle, runController, AuthController.login, h]
    | cons u rest =>
      by_cases hc : bcryptCompare p u.password <;>
        simp [handle, runController, AuthController.login, h, hc]
  | me auth =>
    left
    cases h : authenticateToken db cfg.JWT_SECRET auth with
    | fail s m => simp [handle, runProtected, h]
    | ok u => simp [handle, runProtected, h, runController, AuthController.getProfile]
  | listPosts pg lim =>
    left; simp [handle, runController, PostController.getAllPosts]
  | getPost id =>
    left
    cases h : (db.posts.filter (fun q => q.id == id)).take 1 with
    | nil => simp [handle, runController, PostController.getPostById, h]
    | cons q rest => simp [handle, runController, PostController.getPostById, h]
  | postsByUser uid pg lim =>
    left
    cases h : idParamSchemaParse [("userId", toString uid)] with
    | none => simp [handle, h]
    | some n => simp [handle, h, runController, PostController.getPostsByUserId]
  | create auth title content ip =>
    left
    cases h : authenticateToken db cfg.JWT_SECRET auth with
    | fail s m => simp [handle, runProtected, h]
    | ok u => simp [handle, runProtected, h, runController, PostController.createPost]
  | update auth id upd =>
    left
    cases h : authenticateToken db cfg.JWT_SECRET auth with
    | fail s m => simp [handle, runProtected, h]
    | ok u =>
      cases hq : (db.posts.filter (fun q => q.id == id)).take 1 with
      | nil => simp [handle, runProtected, h, runController, PostController.updatePost, hq]
      | cons q rest =>
        by_cases ho : q.authorId = u.id <;>
          simp [handle, runProtected, h, runController, PostController.updatePost, hq, ho]
  | remove auth id =>
    left
    cases h : authenticateToken db cfg.JWT_SECRET auth with
    | fail s m => simp [handle, runProtected, h]
    | ok u =>
      cases hq : (db.posts.filter (fun q => q.id == id)).take 1 with
      | nil => simp [handle, runProtected, h, runController, PostController.deletePost, hq]
      | cons q rest =>
        by_cases ho : q.authorId = u.id <;>
          simp [handle, runProtected, h, runController, PostController.deletePost, hq, ho]

/-! ## Claim about the isActive flag (C10) -/

/-- Two user rows equal in every column except possibly `isActive`. -/
def userEqExceptActive (u v : User) : Bool :=
  u.id == v.id && u.email == v.email && u.password == v.password &&
  u.firstName == v.firstName && u.lastName == v.lastName &&
  u.createdAt == v.createdAt && u.updatedAt == v.updatedAt

/-- Pointwise lifting of `userEqExceptActive` to the users table. -/
def usersEqExceptActive : List User → List User → Bool
  | [], [] => true
  | u :: us, v :: vs => userEqExceptActive u v && usersEqExceptActive us vs
  | _, _ => false

/-- Two database states equal except possibly in `isActive` values. -/
def dbEqExceptActive (d1 d2 : DB) : Bool :=
  usersEqExceptActive d1.users d2.users && d1.posts == d2.posts &&
  d1.nextUserId == d2.nextUserId && d1.nextPostId == d2.nextPostId

/-- The login response users equal except possibly `isActive`. -/
def loginUserEqExceptActive (u v : UserNoPassword) : Bool :=
  u.id == v.id && u.email == v.email && u.firstName == v.firstName &&
  u.lastName == v.lastName && u.createdAt == v.createdAt && u.updatedAt == v.updatedAt

/-- Response payloads equal except possibly the `isActive` echoed inside a
login response's user object. -/
def respDataEqExceptActive : RespData → RespData → Bool
  | RespData.loggedIn u1 t1, RespData.loggedIn u2 t2 =>
      loginUserEqExceptActive u1 u2 && t1 == t2
  | d1, d2 => d1 == d2

/-- Responses equal except possibly the isActive value inside a login
response body: same status, success flag, message, stack. -/
def respEqExceptActive (r1 r2 : Response) : Bool :=
  r1.status == r2.status && r1.success == r2.success && r1.message == r2.message &&
  respDataEqExceptActive r1.data r2.data && r1.stack == r2.stack

theorem userEqExceptActive_refl (u : User) : userEqExceptActive u u = true := by
  simp [userEqExceptActive]

theorem usersEqExceptActive_refl (us : List User) :
    usersEqExceptActive us us = true := by
  induction us with
  | nil => rfl
  | cons u rest ih => simp [usersEqExceptActive, userEqExceptActive_refl, ih]

theorem respDataEqExceptActive_refl (d : RespData) :
    respDataEqExceptActive d d = true := by
  cases d <;> simp [respDataEqExceptActive, loginUserEqExceptActive]

theorem respEqExceptActive_refl (r : Response) : respEqExceptActive r r = true := by
  simp [respEqExceptActive, respDataEqExceptActive_refl]

/-- Unpacked form of `userEqExceptActive`. -/
theorem userEqExceptActive_fields {u v : User}
    (h : userEqExceptActive u v = true) :
    u.id = v.id ∧ u.email = v.email ∧ u.password = v.password ∧
    u.firstName = v.firstName ∧ u.lastName = v.lastName ∧
    u.createdAt = v.createdAt ∧ u.updatedAt = v.updatedAt := by
  simp only [userEqExceptActive, Bool.and_eq_true, beq_iff_eq] at h
  exact ⟨h.1.1.1.1.1.1, h.1.1.1.1.1.2, h.1.1.1.1.2, h.1.1.1.2, h.1.1.2, h.1.2, h.2⟩

/-- Related user lists are related after filtering by any column the
relation preserves. -/
theorem usersEqExceptActive_filter (p : User → Bool)
    (hp : ∀ u v, userEqExceptActive u v = true → p u = p v) :
    ∀ us vs, usersEqExceptActive us vs = true →
      usersEqExceptActive (us.filter p) (vs.filter p) = true := by
  intro us
  induction us with
  | nil =>
    intro vs h
    cases vs with
    | nil => exact h
    | cons v vt => simp [usersEqExceptActive] at h
  | cons u ut ih =>
    intro vs h
    cases vs with
    | nil => simp [usersEqExceptActive] at h
    | cons v vt =>
      simp only [usersEqExceptActive, Bool.and_eq_true] at h
      have hpv : p u = p v := hp u v h.1
      by_cases hu : p u = true
      · simp [List.filter_cons, hu, ← hpv, usersEqExceptActive, h.1, ih vt h.2]
      · simp only [Bool.not_eq_true] at hu
        simp [List.filter_cons, hu, ← hpv, ih vt h.2]

/-- Related user lists are related after `take`. -/
theorem usersEqExceptActive_take (n : Nat) :
    ∀ us vs, usersEqExceptActive us vs = true →
      usersEqExceptActive (us.take n) (vs.take n) = true := by
  induction n with
  | zero => intro us vs _; rfl
  | succ m ih =>
    intro us vs h
    cases us with
    | nil =>
      cases vs with
      | nil => exact h
      | cons v vt => simp [usersEqExceptActive] at h
    | cons u ut =>
      cases vs with
      | nil => simp [usersEqExceptActive] at h
      | cons v vt =>
        simp only [usersEqExceptActive, Bool.and_eq_true] at h
        simp [List.take_succ_cons, usersEqExceptActive, h.1, ih ut vt h.2]

/-- Related user lists have the same length. -/
theorem usersEqExceptActive_length :
    ∀ us vs, usersEqExceptActive us vs = true → us.length = vs.length := by
  intro us
  induction us with
  | nil =>
    intro vs h
    cases vs with
    | nil => rfl
    | cons v vt => simp [usersEqExceptActive] at h
  | cons u ut ih =>
    intro vs h
    cases vs with
    | nil => simp [usersEqExceptActive] at h
    | cons v vt =>
      simp only [usersEqExceptActive, Bool.and_eq_true] at h
      simp [ih vt h.2]

/-- Related user lists append to related user lists. -/
theorem usersEqExceptActive_append :
    ∀ us vs us2 vs2, usersEqExceptActive us vs = true →
      usersEqExceptActive us2 vs2 = true →
      usersEqExceptActive (us ++ us2) (vs ++ vs2) = true := by
  intro us
  induction us with
  | nil =>
    intro vs us2 vs2 h h2
    cases vs with
    | nil => simpa using h2
    | cons v vt => simp [usersEqExceptActive] at h
  | cons u ut ih =>
    intro vs us2 vs2 h h2
    cases vs with
    | nil => simp [usersEqExceptActive] at h
    | cons v vt =>
      simp only [usersEqExceptActive, Bool.and_eq_true] at h
      simp only [List.cons_append, usersEqExceptActive, Bool.and_eq_true]
      exact ⟨h.1, ih vt us2 vs2 h.2 h2⟩

/-- Equality helper for database states built fieldwise. -/
theorem dbEq_mk (us1 us2 : List User) (ps1 ps2 : List Post) (n1 n2 m1 m2 : Nat)
    (hu : usersEqExceptActive us1 us2 = true) (hp : ps1 = ps2)
    (hn : n1 = n2) (hm : m1 = m2) :
    dbEqExceptActive
      { users := us1, posts := ps1, nextUserId := n1, nextPostId := m1 }
      { users := us2, posts := ps2, nextUserId := n2, nextPostId := m2 } = true := by
  simp [dbEqExceptActive, hu, hp, hn, hm]

/-- The token middleware never reads `isActive`: it answers identically on
databases equal except for that flag. -/
theorem authenticateToken_eq_exceptActive (d1 d2 : DB) (secret : String)
    (header : Option Token)
    (husers : usersEqExceptActive d1.users d2.users = true) :
    authenticateToken d1 secret header = authenticateToken d2 secret header := by
  cases header with
  | none => rfl
  | some t =>
    simp only [authenticateToken]
    cases jwtVerify t secret with
    | none => rfl
    | some uid =>
      have hf := usersEqExceptActive_filter (fun u => u.id == uid)
        (fun u v huv => by
          obtain ⟨hid, _⟩ := userEqExceptActive_fields huv
          simp [hid]) d1.users d2.users husers
      have ht := usersEqExceptActive_take 1 _ _ hf
      cases h1 : (d1.users.filter (fun u => u.id == uid)).take 1 with
      | nil =>
        cases h2 : (d2.users.filter (fun u => u.id == uid)).take 1 with
        | nil => simp [h1, h2]
        | cons v vt => rw [h1, h2] at ht; simp [usersEqExceptActive] at ht
      | cons u ut =>
        cases h2 : (d2.users.filter (fun u => u.id == uid)).take 1 with
        | nil => rw [h1, h2] at ht; simp [usersEqExceptActive] at ht
        | cons v vt =>
          rw [h1, h2] at ht
          simp only [usersEqExceptActive, Bool.and_eq_true] at ht
          obtain ⟨hid, hem, _, hfn, hln, _, _⟩ := userEqExceptActive_fields ht.1
          simp [h1, h2, hid, hem, hfn, hln]

/-- The post read projection never reads `isActive`. -/
theorem postView_eq_exceptActive (d1 d2 : DB) (q : Post)
    (husers : usersEqExceptActive d1.users d2.users = true) :
    postView d1 q = postView d2 q := by
  have hf := usersEqExceptActive_filter (fun u => u.id == q.authorId)
    (fun u v huv => by
      obtain ⟨hid, _⟩ := userEqExceptActive_fields huv
      simp [hid]) d1.users d2.users husers
  have ht := usersEqExceptActive_take 1 _ _ hf
  simp only [postView]
  cases h1 : (d1.users.filter (fun u => u.id == q.authorId)).take 1 with
  | nil =>
    cases h2 : (d2.users.filter (fun u => u.id == q.authorId)).take 1 with
    | nil => simp [h1, h2]
    | cons v vt => rw [h1, h2] at ht; simp [usersEqExceptActive] at ht
  | cons u ut =>
    cases h2 : (d2.users.filter (fun u => u.id == q.authorId)).take 1 with
    | nil => rw [h1, h2] at ht; simp [usersEqExceptActive] at ht
    | cons v vt =>
      rw [h1, h2] at ht
      simp only [usersEqExceptActive, Bool.and_eq_true] at ht
      obtain ⟨hid, hem, _, hfn, hln, _, _⟩ := userEqExceptActive_fields ht.1
      simp [h1, h2, hid, hem, hfn, hln]

/-- Alice's row with the isActive flag cleared. -/
def aliceInactiveRow : User := { aliceRow with isActive := false }

/-- The one-user database with Alice deactivated. -/
def db1Inactive : DB := { db1 with users := [aliceInactiveRow] }

/-- Claim C10, counterexample: the two databases differ only in Alice's
isActive value, yet a correct-password login answers different responses,
because the login body echoes the user row (minus password) including the
isActive column — so "identical responses" fails as stated. -/
theorem login_response_echoes_isActive :
    dbEqExceptActive db1 db1Inactive = true ∧
    (handle cfg0 0 db1 (Req.login "alice@example.com" "hunter77")).resp ≠
      (handle cfg0 0 db1Inactive (Req.login "alice@example.com" "hunter77")).resp ∧
    (handle cfg0 0 db1 (Req.login "alice@example.com" "hunter77")).resp.status = 200 := by
  exact ⟨by decide, by decide, by decide⟩

/-- Claim C10 (amended): no operation consults `isActive` — on two
databases equal except for isActive values every request is answered with
responses identical up to the isActive value echoed inside the login
body (same status, success flag, message and tokens), the same handlers
run, and the resulting databases again differ at most in isActive. In
particular a deactivated user can still log in and use protected routes. -/
theorem isActive_never_consulted (cfg : AppConfig) (now : Nat) (d1 d2 : DB)
    (req : Req) (hdb : dbEqExceptActive d1 d2 = true) :
    respEqExceptActive (handle cfg now d1 req).resp (handle cfg now d2 req).resp = true ∧
    (handle cfg now d1 req).handlerRan = (handle cfg now d2 req).handlerRan ∧
    dbEqExceptActive (handle cfg now d1 req).db (handle cfg now d2 req).db = true := by
  have hparts := hdb
  simp only [dbEqExceptActive, Bool.and_eq_true, beq_iff_eq] at hparts
  obtain ⟨⟨⟨husers, hposts⟩, hnu⟩, hnp⟩ := hparts
  cases req with
  | health =>
    refine ⟨respEqExceptActive_refl _, by trivial, ?_⟩
    simpa only [handle] using hdb
  | register e p f l =>
    have hf := usersEqExceptActive_filter (fun u => u.email == e)
      (fun u v huv => by
        obtain ⟨_, hem, _⟩ := userEqExceptActive_fields huv
        simp [hem]) d1.users d2.users husers
    have hlen : ((d1.users.filter (fun u => u.email == e)).take 1).length =
        ((d2.users.filter (fun u => u.email == e)).take 1).length := by
      simp [List.length_take, usersEqExceptActive_length _ _ hf]
    simp only [handle, runController, AuthController.register]
    by_cases hc : ((d1.users.filter (fun u => u.email == e)).take 1).length > 0
    · have hc2 : ((d2.users.filter (fun u => u.email == e)).take 1).length > 0 :=
        hlen ▸ hc
      rw [if_pos hc, if_pos hc2]
      exact ⟨respEqExceptActive_refl _, by trivial, hdb⟩
    · have hc2 : ¬ ((d2.users.filter (fun u => u.email == e)).take 1).length > 0 :=
        hlen ▸ hc
      rw [if_neg hc, if_neg hc2]
      rw [hnu]
      refine ⟨respEqExceptActive_refl _, by trivial, ?_⟩
      exact dbEq_mk _ _ _ _ _ _ _ _
        (usersEqExceptActive_append _ _ _ _ husers (usersEqExceptActive_refl _))
        hposts rfl hnp
  | login e p =>
    have hf := usersEqExceptActive_filter (fun u => u.email == e)
      (fun u v huv => by
        obtain ⟨_, hem, _⟩ := userEqExceptActive_fields huv
        simp [hem]) d1.users d2.users husers
    have ht := usersEqExceptActive_take 1 _ _ hf
    simp only [handle, runController, AuthController.login]
    cases h1 : (d1.users.filter (fun u => u.email == e)).take 1 with
    | nil =>
      cases h2 : (d2.users.filter (fun u => u.email == e)).take 1 with
      | nil =>
        simp only [h1, h2]
        exact ⟨respEqExceptActive_refl _, by trivial, hdb⟩
      | cons v vt => rw [h1, h2] at ht; simp [usersEqExceptActive] at ht
    | cons u ut =>
      cases h2 : (d2.users.filter (fun u => u.email == e)).take 1 with
      | nil => rw [h1, h2] at ht; simp [usersEqExceptActive] at ht
      | cons v vt =>
        rw [h1, h2] at ht
        simp only [usersEqExceptActive, Bool.and_eq_true] at ht
        obtain ⟨hid, hem, hpw, hfn, hln, hca, hua⟩ := userEqExceptActive_fields ht.1
        simp only [h1, h2, ← hpw]
        by_cases hcmp : bcryptCompare p u.password
        · simp only [hcmp, if_true, if_pos]
          refine ⟨?_, by trivial, hdb⟩
          simp [respEqExceptActive, okResp, respDataEqExceptActive,
            loginUserEqExceptActive, jwtSign, hid, hem, hfn, hln, hca, hua]
        · simp only [hcmp, if_false, Bool.false_eq_true]
          exact ⟨respEqExceptActive_refl _, by trivial, hdb⟩
  | me auth =>
    have ha := authenticateToken_eq_exceptActive d1 d2 cfg.JWT_SECRET auth husers
    cases h : authenticateToken d2 cfg.JWT_SECRET auth with
    | fail s m =>
      simp only [handle, runProtected, ha, h]
      exact ⟨respEqExceptActive_refl _, by trivial, hdb⟩
    | ok u =>
      simp only [handle, runProtected, ha, h, runController, AuthController.getProfile]
      exact ⟨respEqExceptActive_refl _, by trivial, hdb⟩
  | listPosts pg lim =>
    have hpv : postView d1 = postView d2 :=
      funext fun q => postView_eq_exceptActive d1 d2 q husers
    simp only [handle, runController, PostController.getAllPosts, hposts, hpv]
    exact ⟨respEqExceptActive_refl _, by trivial, hdb⟩
  | getPost id =>
    have hpv : postView d1 = postView d2 :=
      funext fun q => postView_eq_exceptActive d1 d2 q husers
    simp only [handle, runController, PostController.getPostById, hposts, hpv]
    cases h : (d2.posts.filter (fun q => q.id == id)).take 1 with
    | nil =>
      simp only [h]
      exact ⟨respEqExceptActive_refl _, by trivial, hdb⟩
    | cons q qt =>
      simp only [h]
      exact ⟨respEqExceptActive_refl _, by trivial, hdb⟩
  | postsByUser uid pg lim =>
    cases h : idParamSchemaParse [("userId", toString uid)] with
    | none =>
      simp only [handle, h]
      exact ⟨respEqExceptActive_refl _, by trivial, hdb⟩
    | some n =>
      simp only [handle, h, runController, PostController.getPostsByUserId, hposts]
      exact ⟨respEqExceptActive_refl _, by trivial, hdb⟩
  | create auth title content ip =>
    have ha := authenticateToken_eq_exceptActive d1 d2 cfg.JWT_SECRET auth husers
    cases h : authenticateToken d2 cfg.JWT_SECRET auth with
    | fail s m =>
      simp only [handle, runProtected, ha, h]
      exact ⟨respEqExceptActive_refl _, by trivial, hdb⟩
    | ok u =>
      simp only [handle, runProtected, ha, h, runController,
        PostController.createPost, hposts, hnp]
      refine ⟨respEqExceptActive_refl _, by trivial, ?_⟩
      exact dbEq_mk _ _ _ _ _ _ _ _ husers rfl hnu rfl
  | update auth id upd =>
    have ha := authenticateToken_eq_exceptActive d1 d2 cfg.JWT_SECRET auth husers
    cases h : authenticateToken d2 cfg.JWT_SECRET auth with
    | fail s m =>
      simp only [handle, runProtected, ha, h]
      exact ⟨respEqExceptActive_refl _, by trivial, hdb⟩
    | ok u =>
      simp only [handle, runProtected, ha, h, runController,
        PostController.updatePost, hposts]
      cases hq : (d2.posts.filter (fun q => q.id == id)).take 1 with
      | nil =>
        simp only [hq]
        exact ⟨respEqExceptActive_refl _, by trivial, hdb⟩
      | cons q qt =>
        simp only [hq]
        by_cases ho : (q.authorId != u.id) = true
        · simp only [ho, if_true, if_pos]
          exact ⟨respEqExceptActive_refl _, by trivial, hdb⟩
        · simp only [Bool.not_eq_true] at ho
          simp only [ho, Bool.false_eq_true, if_false]
          refine ⟨respEqExceptActive_refl _, by trivial, ?_⟩
          exact dbEq_mk _ _ _ _ _ _ _ _ husers rfl hnu hnp
  | remove auth id =>
    have ha := authenticateToken_eq_exceptActive d1 d2 cfg.JWT_SECRET auth husers
    cases h : authenticateToken d2 cfg.JWT_SECRET auth with
    | fail s m =>
      simp only [handle, runProtected, ha, h]
      exact ⟨respEqExceptActive_refl _, by trivial, hdb⟩
    | ok u =>
      simp only [handle, runProtected, ha, h, runController,
        PostController.deletePost, hposts]
      cases hq : (d2.posts.filter (fun q => q.id == id)).take 1 with
      | nil =>
        simp only [hq]
        exact ⟨respEqExceptActive_refl _, by trivial, hdb⟩
      | cons q qt =>
        simp only [hq]
        by_cases ho : (q.authorId != u.id) = true
        · simp only [ho, if_true, if_pos]
          exact ⟨respEqExceptActive_refl _, by trivial, hdb⟩
        · simp only [Bool.not_eq_true] at ho
          simp only [ho, Bool.false_eq_true, if_false]
          refine ⟨respEqExceptActive_refl _, by trivial, ?_⟩
          exact dbEq_mk _ _ _ _ _ _ _ _ husers rfl hnu hnp

/-- Witness for the amended C10 theorem: the deactivated-Alice database
against the active one, on a correct-password login. -/
theorem isActive_never_consulted_witness :
    dbEqExceptActive db1 db1Inactive = true ∧
    (respEqExceptActive
        (handle cfg0 0 db1 (Req.login "alice@example.com" "hunter77")).resp
        (handle cfg0 0 db1Inactive (Req.login "alice@example.com" "hunter77")).resp = true ∧
     (handle cfg0 0 db1 (Req.login "alice@example.com" "hunter77")).handlerRan =
       (handle cfg0 0 db1Inactive (Req.login "alice@example.com" "hunter77")).handlerRan ∧
     dbEqExceptActive
        (handle cfg0 0 db1 (Req.login "alice@example.com" "hunter77")).db
        (handle cfg0 0 db1Inactive (Req.login "alice@example.com" "hunter77")).db = true) :=
  ⟨by decide
  , isActive_never_consulted cfg0 0 db1 db1Inactive
      (Req.login "alice@example.com" "hunter77") (by decide)⟩
